import Mathlib

/-!
# Shallow embedding of the swdc-vscode session/telemetry module

This file embeds the `DataController` module (`src/unnamed/part_000`) and the
`OnboardManager` module (`src/lib/user/OnboardManager.ts`) of the Code Time
VS Code extension, and proves properties of the embedded functions.

Modelling conventions:
* JavaScript truthiness of an optional string (`null`/`undefined`/`""` are
  falsy) is `strTruthy`.
* Local key-value storage (`getItem`/`setItem` for `"jwt"` and `"name"`) is the
  `LocalStorage` record; the editor configuration (three boolean settings) is
  the `EditorConfig` record; the module-level mutable variables
  (`loggedInCacheState`, `initializedPrefs`, `cachedJwt`,
  `secondary_window_activate_counter`, `retry_counter`) complete `ModState`.
* Modelled from the spec: the HTTP transport (`HttpClient`, not part of the
  sources) "returns a normalized response with an ok/not-ok/deactivated
  classification"; each endpoint's response is a record carrying an `ok` flag
  and the data fields the module reads.  Where the source installs a `.catch`
  handler (`serverIsAvailable`, `sendMusicData`) the environment is an
  `Option` of the response, `none` standing for a rejected promise.
* Observable actions (HTTP writes, file deletion, prompts, timers, the
  success callback) are collected in a `List Effect`, in program order.
-/

/-- JavaScript values produced by `JSON.parse`, as far as this module
inspects them. -/
inductive JsValue : Type where
  | jnull : JsValue
  | jbool : Bool → JsValue
  | jnum : Int → JsValue
  | jstr : String → JsValue
  | jobj : List (String × JsValue) → JsValue
  | jarr : List JsValue → JsValue

/-- JavaScript truthiness of a parsed JSON value: `null`, `false`, `0` and
`""` are falsy; every object and array is truthy. -/
def JsValue.truthy : JsValue → Bool
  | JsValue.jnull => false
  | JsValue.jbool b => b
  | JsValue.jnum n => n != 0
  | JsValue.jstr s => s != ""
  | JsValue.jobj _ => true
  | JsValue.jarr _ => true

/-- Truthiness of a nullable string (`null`/`undefined` ↦ `none`): the empty
string is falsy. -/
def strTruthy : Option String → Bool
  | none => false
  | some s => s != ""

/-- The two local-storage keys this module reads and writes. -/
structure LocalStorage : Type where
  jwt : Option String
  name : Option String
deriving DecidableEq, Repr

/-- The three editor configuration settings the preference sync touches. -/
structure EditorConfig : Type where
  showMusicMetrics : Bool
  showGitMetrics : Bool
  showWeeklyRanking : Bool
deriving DecidableEq, Repr

/-- Mutable state visible to the module: local storage, editor configuration,
and the module-level variables of `DataController` and `OnboardManager`. -/
structure ModState : Type where
  storage : LocalStorage
  config : EditorConfig
  loggedInCacheState : Bool
  initializedPrefs : Bool
  cachedJwt : Option String
  secondaryWindowActivateCounter : Nat
  retryCounter : Nat
deriving DecidableEq, Repr

/-- Response of `GET /data/apptoken`.  Modelled from the spec: an ok response
carries a `{jwt}` body. -/
structure AppTokenResp : Type where
  ok : Bool
  jwt : Option String
deriving DecidableEq, Repr

/-- Response of `POST /data/onboard`: `ok` is `isResponseOk`, `hasData` is the
truthiness of `resp.data`, `jwt` is `resp.data.jwt`. -/
structure OnboardResp : Type where
  ok : Bool
  hasData : Bool
  jwt : Option String
deriving DecidableEq, Repr

/-- Response of `GET /users/plugin/state`: the fields `state`, `email`, `jwt`
of `resp.data`, each possibly absent. -/
structure PluginStateResp : Type where
  ok : Bool
  hasData : Bool
  state : Option String
  email : Option String
  jwt : Option String
deriving DecidableEq, Repr

/-- The three tri-state preference fields of a remote user record. -/
structure UserPrefs : Type where
  showMusic : Option Bool
  showGit : Option Bool
  showRank : Option Bool
deriving DecidableEq, Repr

/-- A remote user record, as far as this module reads it. -/
structure UserData : Type where
  id : Nat
  preferences : Option UserPrefs
deriving DecidableEq, Repr

/-- Response of `GET /users/me`: `ok` is `isResponseOk`, `hasData` the
truthiness of `resp.data`, `user` is `resp.data.data`. -/
structure UserResp : Type where
  ok : Bool
  hasData : Bool
  user : Option UserData
deriving DecidableEq, Repr

/-- Response of `GET /users/:id`: `prefs` is the chain
`resp.data.data.preferences` when every link is present. -/
structure UserByIdResp : Type where
  ok : Bool
  prefs : Option UserPrefs
deriving DecidableEq, Repr

/-- Response of `POST /data/batch`: ok / user-deactivated classification. -/
structure BatchResp : Type where
  ok : Bool
  deactivated : Bool
deriving DecidableEq, Repr

/-- Observable actions of the module, in program order. -/
inductive Effect : Type where
  | postOnboard : String → Effect
  | postBatch : List JsValue → Effect
  | postMusic : Effect
  | postHeartbeat : String → Effect
  | putPreferences : Nat → Bool → Bool → Bool → Effect
  | updateConfig : String → Bool → Effect
  | notifyShowMusicMetrics : Bool → Effect
  | setContextLoggedIn : Bool → Effect
  | deleteDataStoreFile : Effect
  | showOfflinePrompt : Effect
  | scheduleOnboardRetry : Nat → Effect
  | scheduleSecondaryWindowRetry : Nat → Effect
  | callSuccessFunction : Bool → Effect
  | scheduleKpmFetch : Nat → Effect

/-- `serverIsAvailable()`: `GET /ping`, returning `isResponseOk`; a rejected
promise (`none`) is caught and mapped to `false`. -/
def serverIsAvailable : Option Bool → Bool
  | none => false
  | some ok => ok

/-- Outcome of `sendMusicData`. -/
inductive SendStatus : Type where
  | ok : SendStatus
  | fail : SendStatus
deriving DecidableEq, Repr

/-- `sendMusicData(trackData)`: a not-ok response or a rejected promise maps
to `{status: "fail"}`, an ok response to `{status: "ok"}`. -/
def sendMusicData : Option Bool → SendStatus
  | none => SendStatus.fail
  | some ok => if ok then SendStatus.ok else SendStatus.fail

/-- `getAppJwt(serverIsOnline)`: returns `resp.data.jwt` on an ok response
when online, otherwise `null`. -/
def getAppJwt (serverIsOnline : Bool) (resp : AppTokenResp) : Option String :=
  if serverIsOnline then
    if resp.ok then resp.jwt else none
  else none

/-- Environment for `createAnonymousUser`: responses of the app-token GET and
the onboarding POST. -/
structure CreateAnonEnv : Type where
  appToken : AppTokenResp
  onboard : OnboardResp
deriving DecidableEq, Repr

namespace DC

/-- `DataController.createAnonymousUser(serverIsOnline)`: guarded by the app
jwt, by `serverIsOnline`, and by absence (falsiness) of both the stored and
the in-memory jwt; on an ok onboarding response carrying a truthy jwt both
the store and the memory cache are set to it; when only the memory cache
holds a truthy jwt it is copied into the store. -/
def createAnonymousUser (serverIsOnline : Bool) (env : CreateAnonEnv)
    (s : ModState) : ModState × List Effect :=
  let appJwt := getAppJwt serverIsOnline env.appToken
  if strTruthy appJwt && serverIsOnline then
    let jwt := s.storage.jwt
    if !strTruthy jwt && !strTruthy s.cachedJwt then
      let resp := env.onboard
      if resp.ok && resp.hasData && strTruthy resp.jwt then
        ({ s with storage := { s.storage with jwt := resp.jwt },
                  cachedJwt := resp.jwt },
         [Effect.postOnboard "NO_JWT"])
      else
        (s, [Effect.postOnboard "NO_JWT"])
    else
      if !strTruthy jwt && strTruthy s.cachedJwt then
        ({ s with storage := { s.storage with jwt := s.cachedJwt } }, [])
      else
        (s, [])
  else
    (s, [])

end DC

namespace OM

/-- `OnboardManager.createAnonymousUser(serverIsOnline)`: same onboarding POST
with tag `"NO_SESSION_FILE"`, guarded only by the stored jwt (this module has
no in-memory cache); returns the new jwt on success and `null` otherwise. -/
def createAnonymousUser (serverIsOnline : Bool) (env : CreateAnonEnv)
    (s : ModState) : ModState × List Effect × Option String :=
  let appJwt := getAppJwt serverIsOnline env.appToken
  if strTruthy appJwt && serverIsOnline then
    let jwt := s.storage.jwt
    if !strTruthy jwt then
      let resp := env.onboard
      if resp.ok && resp.hasData && strTruthy resp.jwt then
        ({ s with storage := { s.storage with jwt := resp.jwt } },
         [Effect.postOnboard "NO_SESSION_FILE"], resp.jwt)
      else
        (s, [Effect.postOnboard "NO_SESSION_FILE"], none)
    else
      (s, [], none)
  else
    (s, [], none)

end OM

/-- Result record of `isLoggedOn`. -/
structure LoggedOnResult : Type where
  loggedOn : Bool
  state : String
deriving DecidableEq, Repr

/-- `isLoggedOn(serverIsOnline, jwt)`: on an ok response with data, a state of
`"OK"` stores the response email under `"name"`, unconditionally overwrites
the in-memory jwt cache with the response jwt, and — when that jwt is truthy
and differs from the argument — persists it and clears `initializedPrefs`;
every other outcome leaves the state unchanged. -/
def isLoggedOn (serverIsOnline : Bool) (resp : PluginStateResp)
    (jwt : Option String) (s : ModState) : ModState × LoggedOnResult :=
  if serverIsOnline then
    if resp.ok && resp.hasData then
      let state := match resp.state with
        | some st => if st == "" then "UNKNOWN" else st
        | none => "UNKNOWN"
      if state == "OK" then
        let s1 := { s with storage := { s.storage with name := resp.email },
                           cachedJwt := resp.jwt }
        if strTruthy resp.jwt && resp.jwt != jwt then
          ({ s1 with storage := { s1.storage with jwt := resp.jwt },
                     initializedPrefs := false },
           { loggedOn := true, state := state })
        else
          (s1, { loggedOn := true, state := state })
      else
        (s, { loggedOn := false, state := state })
    else
      (s, { loggedOn := false, state := "UNKNOWN" })
  else
    (s, { loggedOn := false, state := "UNKNOWN" })

/-- `getUser(serverIsOnline, jwt)`: returns `resp.data.data` on an ok response
with data when online and the jwt is truthy, otherwise `null`. -/
def getUser (serverIsOnline : Bool) (jwt : Option String) (resp : UserResp) :
    Option UserData :=
  if strTruthy jwt && serverIsOnline then
    if resp.ok && resp.hasData then resp.user else none
  else none

/-- `sendPreferencesUpdate(userId, userPrefs)`: overlays the three current
local configuration values onto the preferences object, notifies the music
module, and PUTs `/users/:id/preferences`; the response is only logged. -/
def sendPreferencesUpdate (userId : Nat) (s : ModState) : List Effect :=
  [Effect.notifyShowMusicMetrics s.config.showMusicMetrics,
   Effect.putPreferences userId s.config.showMusicMetrics
     s.config.showGitMetrics s.config.showWeeklyRanking]

/-- Environment for `initializePreferences`: its own reachability probe and
the `/users/me` response. -/
structure InitPrefsEnv : Type where
  online : Bool
  userResp : UserResp
deriving DecidableEq, Repr

/-- `initializePreferences()`: fetches the user; when any of the three remote
preference fields is unset, pushes the current local configuration via
`sendPreferencesUpdate`; when all three are set, pulls them into the local
configuration (music first, with a notification). -/
def initializePreferences (env : InitPrefsEnv) (s : ModState) :
    ModState × List Effect :=
  if strTruthy s.storage.jwt && env.online then
    match getUser env.online s.storage.jwt env.userResp with
    | some user =>
      match user.preferences with
      | some prefs =>
        match prefs.showMusic, prefs.showGit, prefs.showRank with
        | some m, some g, some r =>
          ({ s with config := { showMusicMetrics := m, showGitMetrics := g,
                                showWeeklyRanking := r } },
           [Effect.updateConfig "showMusicMetrics" m,
            Effect.notifyShowMusicMetrics m,
            Effect.updateConfig "showGitMetrics" g,
            Effect.updateConfig "showWeeklyRanking" r])
        | _, _, _ => (s, sendPreferencesUpdate user.id s)
      | none => (s, [])
    | none => (s, [])
  else
    (s, [])

/-- Environment for `updatePreferences`. -/
structure UpdatePrefsEnv : Type where
  online : Bool
  userResp : UserResp
  userById : UserByIdResp
deriving DecidableEq, Repr

/-- `updatePreferences()`: always notifies the music module of the local
value first; then, when the user and the remote preferences are fetched, a
PUT with the local values follows exactly when some remote field is unset or
differs from the local configuration.  The local configuration is never
written. -/
def updatePreferences (env : UpdatePrefsEnv) (s : ModState) :
    ModState × List Effect :=
  let notifyEff := Effect.notifyShowMusicMetrics s.config.showMusicMetrics
  if strTruthy s.storage.jwt && env.online then
    match getUser env.online s.storage.jwt env.userResp with
    | none => (s, [notifyEff])
    | some user =>
      if env.userById.ok then
        match env.userById.prefs with
        | some prefs =>
          if prefs.showMusic.isNone || prefs.showGit.isNone ||
              prefs.showRank.isNone ||
              prefs.showMusic != some s.config.showMusicMetrics ||
              prefs.showGit != some s.config.showGitMetrics ||
              prefs.showRank != some s.config.showWeeklyRanking then
            (s, notifyEff :: sendPreferencesUpdate user.id s)
          else
            (s, [notifyEff])
        | none => (s, [notifyEff])
      else (s, [notifyEff])
  else (s, [notifyEff])

/-- Environment for one `getUserStatus()` call: the reachability probe, the
`createAnonymousUser` responses, the plugin-state responses of the primary
and of the possible fallback `isLoggedOn` call, and the environment of the
`initializePreferences` call it may fire. -/
structure GUSEnv : Type where
  serverOnline : Bool
  anon : CreateAnonEnv
  resp1 : PluginStateResp
  resp2 : PluginStateResp
  prefsEnv : InitPrefsEnv
deriving DecidableEq, Repr

/-- Result record of `getUserStatus`. -/
structure UserStatus : Type where
  loggedIn : Bool
deriving DecidableEq, Repr

/-- The anonymous-user creation step of `getUserStatus`: performed only when
neither the stored nor the cached jwt is truthy. -/
def anonPhase (env : GUSEnv) (s : ModState) : ModState × List Effect :=
  if !strTruthy s.storage.jwt && !strTruthy s.cachedJwt then
    DC.createAnonymousUser env.serverOnline env.anon s
  else (s, [])

/-- The login checks of `getUserStatus`: `isLoggedOn` with the freshly read
jwt, then — when that fails, the cached jwt is truthy and differs from the
jwt just tried — once more with the cached jwt. -/
def checkPhase (env : GUSEnv) (s : ModState) : ModState × LoggedOnResult :=
  let check1 := isLoggedOn env.serverOnline env.resp1 s.storage.jwt s
  if !check1.2.loggedOn && strTruthy check1.1.cachedJwt &&
      s.storage.jwt != check1.1.cachedJwt then
    isLoggedOn env.serverOnline env.resp2 check1.1.cachedJwt check1.1
  else check1

/-- The online part of `getUserStatus`: anonymous-user creation when no jwt
is present anywhere, then the login checks. -/
def loginPhase (env : GUSEnv) (s : ModState) : ModState × List Effect × Bool :=
  if env.serverOnline then
    let a := anonPhase env s
    let c := checkPhase env a.1
    (c.1, a.2, c.2.loggedOn)
  else (s, [], false)

/-- `getUserStatus()`: probes the server, runs the login phase, fires
`initializePreferences` on the first preference-eligible login, clears the
stored name when not logged in, publishes the context flag, and emits a
state-change heartbeat followed by a delayed session-info fetch when the
login boolean changed.  (`cleanSessionInfo` touches only session metadata
outside the modelled keys.) -/
def getUserStatus (env : GUSEnv) (s : ModState) :
    ModState × List Effect × UserStatus :=
  let step1 := loginPhase env s
  let s1 := step1.1
  let loggedIn := step1.2.2
  let step2 : ModState × List Effect :=
    if env.serverOnline && loggedIn && !s1.initializedPrefs then
      let p := initializePreferences env.prefsEnv s1
      ({ p.1 with initializedPrefs := true }, p.2)
    else (s1, [])
  let s2 := step2.1
  let s3 :=
    if !loggedIn then
      { s2 with storage := { s2.storage with name := none } }
    else s2
  let hbEffs : List Effect :=
    if env.serverOnline && s3.loggedInCacheState != loggedIn then
      [Effect.postHeartbeat
         ("STATE_CHANGE:LOGGED_IN:" ++ (if loggedIn then "true" else "false")),
       Effect.scheduleKpmFetch 1000]
    else []
  ({ s3 with loggedInCacheState := loggedIn },
   step1.2.1 ++ step2.2 ++ [Effect.setContextLoggedIn loggedIn] ++ hbEffs,
   { loggedIn := loggedIn })

/-- Splitting of a character list at `'\n'`; `acc` holds the reversed
current piece.  (`"".split` yields one empty piece, like JavaScript.) -/
def splitNewlines : List Char → List Char → List (List Char)
  | [], acc => [acc.reverse]
  | c :: rest, acc =>
    if c = '\n' then acc.reverse :: splitNewlines rest []
    else splitNewlines rest (c :: acc)

/-- Removal of one trailing `'\r'`, so that splitting at `'\n'` and stripping
agrees with splitting at `/\r?\n/`. -/
def stripTrailingCR (cs : List Char) : List Char :=
  match cs.getLast? with
  | some c => if c = '\r' then cs.dropLast else cs
  | none => cs

/-- Splitting of a file body on `/\r?\n/`. -/
def jsLines (content : String) : List String :=
  (splitNewlines content.toList []).map
    (fun cs => String.mk (stripTrailingCR cs))

/-- The contribution of one line of the batch file to the payload: an empty
line is skipped before parsing, a parse error (`none` from the `JSON.parse`
oracle) leaves `obj` null, and a falsy parse result is removed by the
`filter(item => item)`. -/
def payloadOfLine (parse : String → Option JsValue) (item : String) :
    Option JsValue :=
  if item == "" then none
  else match parse item with
    | some obj => if obj.truthy then some obj else none
    | none => none

/-- The batch payload built by `sendOfflineData`. -/
def batchPayloads (parse : String → Option JsValue) (content : String) :
    List JsValue :=
  (jsLines content).filterMap (payloadOfLine parse)


/-- A line of the batch file that contributes an element to the payload:
non-empty and parsing to a truthy JSON value. -/
def goodLine (parse : String → Option JsValue) (item : String) : Bool :=
  if item == "" then false
  else match parse item with
    | some obj => obj.truthy
    | none => false

/-- Environment for `sendOfflineData`: the batch file, the `JSON.parse`
oracle, the batch-POST response and the follow-up `/ping` outcome. -/
structure OfflineEnv : Type where
  fileExists : Bool
  content : String
  parse : String → Option JsValue
  batchResp : BatchResp
  probe : Option Bool

/-- `sendOfflineData()`: when the batch file exists and its content is
non-empty, POSTs the filtered payload; the file is deleted only when the
response is ok or user-deactivated and a subsequent fresh
`serverIsAvailable` probe succeeds. -/
def sendOfflineData (env : OfflineEnv) : List Effect :=
  if env.fileExists then
    if env.content == "" then []
    else
      Effect.postBatch (batchPayloads env.parse env.content) ::
        (if env.batchResp.ok || env.batchResp.deactivated then
          (if serverIsAvailable env.probe then [Effect.deleteDataStoreFile]
           else [])
         else [])
  else []

/-- One timeline event of the `refetchUserStatusLazily` loop. -/
inductive RefetchEvent : Type where
  | delay : Nat → RefetchEvent
  | statusCheck : RefetchEvent
deriving DecidableEq, Repr

/-- `userStatusFetchHandler(tryCountUntilFoundUser)`: one status check; when
it reports not logged in and the counter is positive, the counter is
decremented and `refetchUserStatusLazily` re-arms a ten-second timer.
`loggedInAt i` is the result of the `i`-th status check of the chain. -/
def userStatusFetchHandler (loggedInAt : Nat → Bool) :
    Nat → Nat → List RefetchEvent
  | tries, i =>
    RefetchEvent.statusCheck ::
      (if loggedInAt i then []
       else match tries with
         | 0 => []
         | t + 1 =>
           RefetchEvent.delay 10000 :: userStatusFetchHandler loggedInAt t (i + 1))

/-- `refetchUserStatusLazily(tryCountUntilFoundUser)`: arms a ten-second
timer whose handler is `userStatusFetchHandler`. -/
def refetchUserStatusLazily (tries : Nat) (loggedInAt : Nat → Bool) :
    List RefetchEvent :=
  RefetchEvent.delay 10000 :: userStatusFetchHandler loggedInAt tries 0

/-- Number of status checks in a refetch timeline. -/
def countChecks (evs : List RefetchEvent) : Nat :=
  evs.countP (fun e => e == RefetchEvent.statusCheck)

/-- Environment for one `onboardPlugin` invocation: window focus, the
reachability probe, the two Util existence checks, and the responses consumed
by `OM.createAnonymousUser`. -/
structure OnboardEnv : Type where
  windowFocused : Bool
  serverOnline : Bool
  sessionFileExists : Bool
  jwtExists : Bool
  anon : CreateAnonEnv
deriving DecidableEq, Repr

/-- Which timer an `onboardPlugin` invocation leaves armed: the five-second
secondary-window defer (whose callback increments
`secondary_window_activate_counter`), the ten-minute onboarding retry (whose
callback increments `retry_counter`), or none. -/
inductive OnboardNext : Type where
  | secondaryDefer : OnboardNext
  | retry : OnboardNext
  | done : OnboardNext
deriving DecidableEq, Repr

/-- One invocation of `onboardPlugin(ctx, successFunction)`: defers in an
unfocused window while no secondary activation happened; with a missing
session file or jwt, shows the offline prompt only when `retry_counter` is
zero and re-arms a ten-minute retry on an offline probe or a failed anonymous
creation; calls the success callback with `true` after a successful creation
and with `false` immediately when the session exists. -/
def onboardPlugin (env : OnboardEnv) (s : ModState) :
    ModState × List Effect × OnboardNext :=
  if !env.windowFocused && s.secondaryWindowActivateCounter == 0 then
    (s, [Effect.scheduleSecondaryWindowRetry 5000], OnboardNext.secondaryDefer)
  else
    if !env.sessionFileExists || !env.jwtExists then
      if !env.serverOnline then
        (s,
         (if s.retryCounter == 0 then [Effect.showOfflinePrompt] else []) ++
           [Effect.scheduleOnboardRetry 600000],
         OnboardNext.retry)
      else
        let created := OM.createAnonymousUser env.serverOnline env.anon s
        if !strTruthy created.2.2 then
          (created.1,
           created.2.1 ++
             (if s.retryCounter == 0 then [Effect.showOfflinePrompt] else []) ++
             [Effect.scheduleOnboardRetry 600000],
           OnboardNext.retry)
        else
          (created.1, created.2.1 ++ [Effect.callSuccessFunction true],
           OnboardNext.done)
    else
      (s, [Effect.callSuccessFunction false], OnboardNext.done)

/-- A sequential run of the `onboardPlugin` timer chain: each list element is
the environment of one invocation; the counter named by the armed timer is
incremented when it fires, before the next invocation. -/
def onboardRun (s : ModState) : List OnboardEnv → List Effect
  | [] => []
  | env :: rest =>
    let r := onboardPlugin env s
    match r.2.2 with
    | OnboardNext.done => r.2.1
    | OnboardNext.secondaryDefer =>
      r.2.1 ++ onboardRun
        { r.1 with secondaryWindowActivateCounter :=
            r.1.secondaryWindowActivateCounter + 1 } rest
    | OnboardNext.retry =>
      r.2.1 ++ onboardRun
        { r.1 with retryCounter := r.1.retryCounter + 1 } rest

/-- One sequential operation of the embedded modules, as a transition on the
modelled state.  `secondaryTimerFired` and `retryTimerFired` are the counter
increments performed by the armed `onboardPlugin` timers. -/
inductive Step : ModState → ModState → Prop where
  | dcCreateAnon (online : Bool) (env : CreateAnonEnv) (s : ModState) :
      Step s (DC.createAnonymousUser online env s).1
  | omCreateAnon (online : Bool) (env : CreateAnonEnv) (s : ModState) :
      Step s (OM.createAnonymousUser online env s).1
  | userStatus (env : GUSEnv) (s : ModState) :
      Step s (getUserStatus env s).1
  | initPrefs (env : InitPrefsEnv) (s : ModState) :
      Step s (initializePreferences env s).1
  | updatePrefs (env : UpdatePrefsEnv) (s : ModState) :
      Step s (updatePreferences env s).1
  | onboard (env : OnboardEnv) (s : ModState) :
      Step s (onboardPlugin env s).1
  | secondaryTimerFired (s : ModState) :
      Step s { s with secondaryWindowActivateCounter :=
                 s.secondaryWindowActivateCounter + 1 }
  | retryTimerFired (s : ModState) :
      Step s { s with retryCounter := s.retryCounter + 1 }

/-- States reachable by sequential runs of the module: at process start the
module-level variables have their initializers (`false`, `false`, `null`,
`0`, `0`) while the persisted storage and the editor configuration are
arbitrary. -/
inductive Reachable : ModState → Prop where
  | init (storage : LocalStorage) (config : EditorConfig) :
      Reachable { storage := storage, config := config,
                  loggedInCacheState := false, initializedPrefs := false,
                  cachedJwt := none, secondaryWindowActivateCounter := 0,
                  retryCounter := 0 }
  | step {s s' : ModState} : Reachable s → Step s s' → Reachable s'

/-- The token coherence property: a truthy in-memory jwt cache always equals
the persisted jwt. -/
def jwtCoherent (s : ModState) : Prop :=
  strTruthy s.cachedJwt = true → s.storage.jwt = s.cachedJwt


/-- Number of offline prompts in an effect trace. -/
def countPrompts : List Effect → Nat
  | [] => 0
  | Effect.showOfflinePrompt :: rest => countPrompts rest + 1
  | _ :: rest => countPrompts rest

/-- A process-start state with empty storage and an arbitrary but fixed
configuration. -/
def initState0 : ModState :=
  { storage := { jwt := none, name := none },
    config := { showMusicMetrics := true, showGitMetrics := false,
                showWeeklyRanking := true },
    loggedInCacheState := false, initializedPrefs := false,
    cachedJwt := none, secondaryWindowActivateCounter := 0,
    retryCounter := 0 }

/-- An environment in which onboarding succeeds and issues the jwt
`"anon-jwt"`. -/
def anonEnvOk : CreateAnonEnv :=
  { appToken := { ok := true, jwt := some "app-jwt" },
    onboard := { ok := true, hasData := true, jwt := some "anon-jwt" } }

/-- The state after a successful `DC.createAnonymousUser` from process
start: both the store and the cache hold `"anon-jwt"`. -/
def tokState : ModState := (DC.createAnonymousUser true anonEnvOk initState0).1

/-- The file body of the offline-batch scenario. -/
def exContent : String := "\x7b\"a\":1\x7d\n\nbadjson\n\x7b\"b\":2\x7d"

/-- A `JSON.parse` oracle agreeing with JavaScript on the lines of
`exContent`: the two object lines parse, the empty line and `badjson`
throw. -/
def exParse : String → Option JsValue := fun s =>
  if s == "\x7b\"a\":1\x7d" then some (JsValue.jobj [("a", JsValue.jnum 1)])
  else if s == "\x7b\"b\":2\x7d" then some (JsValue.jobj [("b", JsValue.jnum 2)])
  else none

/-- A `JSON.parse` oracle agreeing with JavaScript on the line `"0"`, which
parses to the (falsy) number `0`. -/
def parse0 : String → Option JsValue := fun s =>
  if s == "0" then some (JsValue.jnum 0) else none

/-- Offline environment whose batch file holds the single line `"0"`. -/
def cexEnvZero : OfflineEnv :=
  { fileExists := true, content := "0", parse := parse0,
    batchResp := { ok := true, deactivated := false },
    probe := some true }

/-- Offline environment whose batch file exists with empty content. -/
def cexEnvEmpty : OfflineEnv :=
  { fileExists := true, content := "", parse := parse0,
    batchResp := { ok := true, deactivated := false },
    probe := some true }

def exEnv : OfflineEnv :=
  { fileExists := true, content := exContent, parse := exParse,
    batchResp := { ok := true, deactivated := false },
    probe := some true }

def respRotate : PluginStateResp :=
  { ok := true, hasData := true, state := some "OK",
    email := some "alice@example.com", jwt := some "rotated-jwt" }

def respNoJwt : PluginStateResp :=
  { ok := true, hasData := true, state := some "OK",
    email := some "alice@example.com", jwt := none }

def prefsUnset : UserPrefs :=
  { showMusic := none, showGit := some true, showRank := some false }

def prefsSet : UserPrefs :=
  { showMusic := some false, showGit := some true, showRank := some false }

def userUnset : UserData := { id := 7, preferences := some prefsUnset }

def userSet : UserData := { id := 7, preferences := some prefsSet }

def initEnvUnset : InitPrefsEnv :=
  { online := true,
    userResp := { ok := true, hasData := true, user := some userUnset } }

def initEnvSet : InitPrefsEnv :=
  { online := true,
    userResp := { ok := true, hasData := true, user := some userSet } }

def prefsEq : UserPrefs :=
  { showMusic := some true, showGit := some false, showRank := some true }

def prefsDiff : UserPrefs :=
  { showMusic := some false, showGit := some false, showRank := some true }

def userRespSeven : UserResp :=
  { ok := true, hasData := true,
    user := some { id := 7, preferences := none } }

def updateEnvEq : UpdatePrefsEnv :=
  { online := true, userResp := userRespSeven,
    userById := { ok := true, prefs := some prefsEq } }

def updateEnvDiff : UpdatePrefsEnv :=
  { online := true, userResp := userRespSeven,
    userById := { ok := true, prefs := some prefsDiff } }

def appTokenBad : AppTokenResp := { ok := false, jwt := some "x" }

def userRespBad : UserResp := { ok := false, hasData := true, user := none }

def pluginStateBad : PluginStateResp :=
  { ok := false, hasData := true, state := some "OK",
    email := none, jwt := none }

def gusEnvBad : GUSEnv :=
  { serverOnline := true, anon := anonEnvOk, resp1 := pluginStateBad,
    resp2 := pluginStateBad, prefsEnv := initEnvSet }

def onboardEnvOffline : OnboardEnv :=
  { windowFocused := true, serverOnline := false,
    sessionFileExists := false, jwtExists := false, anon := anonEnvOk }

def onboardEnvSession : OnboardEnv :=
  { windowFocused := true, serverOnline := true,
    sessionFileExists := true, jwtExists := true, anon := anonEnvOk }

def onboardEnvCreate : OnboardEnv :=
  { windowFocused := true, serverOnline := true,
    sessionFileExists := false, jwtExists := false, anon := anonEnvOk }

/-! ## Coherence of the in-memory jwt cache with the persisted jwt -/

theorem dcCreateAnon_coherent (online : Bool) (env : CreateAnonEnv)
    (s : ModState) (h : jwtCoherent s) :
    jwtCoherent (DC.createAnonymousUser online env s).1 := by
  unfold DC.createAnonymousUser
  dsimp only
  split
  · split
    · split
      · intro _
        rfl
      · exact h
    · split
      · intro _
        rfl
      · exact h
  · exact h

theorem omCreateAnon_coherent (online : Bool) (env : CreateAnonEnv)
    (s : ModState) (h : jwtCoherent s) :
    jwtCoherent (OM.createAnonymousUser online env s).1 := by
  unfold OM.createAnonymousUser
  dsimp only
  split
  · split
    · rename_i hjwt
      split
      · intro hc
        exfalso
        simp only [Bool.not_eq_true'] at hjwt
        rw [h hc, hc] at hjwt
        exact absurd hjwt (by decide)
      · exact h
    · exact h
  · exact h

theorem isLoggedOn_self_coherent (online : Bool) (resp : PluginStateResp)
    (s : ModState) (h : jwtCoherent s) :
    jwtCoherent (isLoggedOn online resp s.storage.jwt s).1 := by
  unfold isLoggedOn
  dsimp only
  split
  · split
    · split
      · split
        · intro _
          rfl
        · rename_i hcond
          intro hc
          simp only [jwtCoherent, ModState.cachedJwt] at hc ⊢
          simp only [Bool.and_eq_true, bne_iff_ne, ne_eq, not_and, not_not,
            Bool.not_eq_true] at hcond
          exact (hcond hc).symm
      · exact h
    · exact h
  · exact h

theorem isLoggedOn_cases (online : Bool) (resp : PluginStateResp)
    (jwt : Option String) (s : ModState) :
    (isLoggedOn online resp jwt s).2.loggedOn = true ∨
      (isLoggedOn online resp jwt s).1 = s := by
  unfold isLoggedOn
  dsimp only
  split
  · split
    · split
      · split
        · exact Or.inl rfl
        · exact Or.inl rfl
      · exact Or.inr rfl
    · exact Or.inr rfl
  · exact Or.inr rfl

theorem anonPhase_coherent (env : GUSEnv) (s : ModState)
    (h : jwtCoherent s) : jwtCoherent (anonPhase env s).1 := by
  unfold anonPhase
  split
  · exact dcCreateAnon_coherent _ _ _ h
  · exact h

theorem checkPhase_coherent (env : GUSEnv) (s : ModState)
    (h : jwtCoherent s) : jwtCoherent (checkPhase env s).1 := by
  unfold checkPhase
  dsimp only
  split
  · rename_i hcond
    exfalso
    simp only [Bool.and_eq_true, Bool.not_eq_true', bne_iff_ne, ne_eq] at hcond
    obtain ⟨⟨h1, h2⟩, h3⟩ := hcond
    rcases isLoggedOn_cases env.serverOnline env.resp1 s.storage.jwt s with hl | he
    · rw [hl] at h1
      exact absurd h1 (by decide)
    · rw [he] at h2 h3
      exact h3 (h h2)
  · exact isLoggedOn_self_coherent _ _ _ h

theorem loginPhase_coherent (env : GUSEnv) (s : ModState)
    (h : jwtCoherent s) : jwtCoherent (loginPhase env s).1 := by
  unfold loginPhase
  dsimp only
  split
  · exact checkPhase_coherent _ _ (anonPhase_coherent _ _ h)
  · exact h

theorem initPrefs_frame (env : InitPrefsEnv) (s : ModState) :
    (initializePreferences env s).1.storage = s.storage ∧
      (initializePreferences env s).1.cachedJwt = s.cachedJwt := by
  unfold initializePreferences
  split
  · split
    · split
      · split
        · exact ⟨rfl, rfl⟩
        · exact ⟨rfl, rfl⟩
      · exact ⟨rfl, rfl⟩
    · exact ⟨rfl, rfl⟩
  · exact ⟨rfl, rfl⟩

theorem initPrefs_coherent (env : InitPrefsEnv) (s : ModState)
    (h : jwtCoherent s) : jwtCoherent (initializePreferences env s).1 := by
  intro hc
  obtain ⟨h1, h2⟩ := initPrefs_frame env s
  rw [h2] at hc ⊢
  rw [h1]
  exact h hc

theorem updatePrefs_state_eq (env : UpdatePrefsEnv) (s : ModState) :
    (updatePreferences env s).1 = s := by
  unfold updatePreferences
  split
  · split
    · rfl
    · split
      · split
        · split
          · rfl
          · rfl
        · rfl
      · rfl
  · rfl

theorem getUserStatus_jwt_frame (env : GUSEnv) (s : ModState) :
    (getUserStatus env s).1.storage.jwt = (loginPhase env s).1.storage.jwt ∧
      (getUserStatus env s).1.cachedJwt = (loginPhase env s).1.cachedJwt := by
  obtain ⟨h1, h2⟩ := initPrefs_frame env.prefsEnv (loginPhase env s).1
  unfold getUserStatus
  dsimp only
  by_cases hp : (env.serverOnline && (loginPhase env s).2.2 &&
      !(loginPhase env s).1.initializedPrefs) = true
  · by_cases hn : (!(loginPhase env s).2.2) = true
    · simp [hp, hn, h1, h2]
    · simp [hp, hn, h1, h2]
  · by_cases hn : (!(loginPhase env s).2.2) = true
    · simp [hp, hn]
    · simp [hp, hn]

theorem getUserStatus_coherent (env : GUSEnv) (s : ModState)
    (h : jwtCoherent s) : jwtCoherent (getUserStatus env s).1 := by
  obtain ⟨h1, h2⟩ := getUserStatus_jwt_frame env s
  intro hc
  rw [h2] at hc ⊢
  rw [h1]
  exact loginPhase_coherent env s h hc

theorem onboard_coherent (env : OnboardEnv) (s : ModState)
    (h : jwtCoherent s) : jwtCoherent (onboardPlugin env s).1 := by
  unfold onboardPlugin
  dsimp only
  split
  · exact h
  · split
    · split
      · exact h
      · split
        · exact omCreateAnon_coherent _ _ _ h
        · exact omCreateAnon_coherent _ _ _ h
    · exact h

theorem reachable_coherent {s : ModState} (h : Reachable s) : jwtCoherent s := by
  induction h with
  | init storage config =>
    intro hc
    exact absurd hc (by simp [strTruthy])
  | step hr hs ih =>
    rename_i s₀ s₁
    cases hs with
    | dcCreateAnon online env => exact dcCreateAnon_coherent online env s₀ ih
    | omCreateAnon online env => exact omCreateAnon_coherent online env s₀ ih
    | userStatus env => exact getUserStatus_coherent env s₀ ih
    | initPrefs env => exact initPrefs_coherent env s₀ ih
    | updatePrefs env =>
      rw [updatePrefs_state_eq env s₀]
      exact ih
    | onboard env => exact onboard_coherent env s₀ ih
    | secondaryTimerFired => exact ih
    | retryTimerFired => exact ih

/-! ## Support lemmas -/

theorem isLoggedOn_not_ok (online : Bool) (resp : PluginStateResp)
    (jwt : Option String) (s : ModState) (h : resp.ok = false) :
    (isLoggedOn online resp jwt s).2.loggedOn = false := by
  unfold isLoggedOn
  dsimp only
  split
  · split
    · rename_i hc
      rw [h] at hc
      simp at hc
    · rfl
  · rfl

theorem checkPhase_not_ok (env : GUSEnv) (s : ModState)
    (h1 : env.resp1.ok = false) (h2 : env.resp2.ok = false) :
    (checkPhase env s).2.loggedOn = false := by
  unfold checkPhase
  dsimp only
  split
  · exact isLoggedOn_not_ok _ _ _ _ h2
  · exact isLoggedOn_not_ok _ _ _ _ h1

theorem loginPhase_not_ok (env : GUSEnv) (s : ModState)
    (h1 : env.resp1.ok = false) (h2 : env.resp2.ok = false) :
    (loginPhase env s).2.2 = false := by
  unfold loginPhase
  dsimp only
  split
  · exact checkPhase_not_ok _ _ h1 h2
  · rfl

theorem getUserStatus_result (env : GUSEnv) (s : ModState) :
    (getUserStatus env s).2.2 = { loggedIn := (loginPhase env s).2.2 } := rfl


theorem payloadOfLine_isSome (parse : String → Option JsValue)
    (item : String) :
    (payloadOfLine parse item).isSome = goodLine parse item := by
  unfold payloadOfLine goodLine
  split
  · rfl
  · split
    · split
      · rename_i hobj
        simp [hobj]
      · rename_i hobj
        simp [hobj]
    · rfl

theorem batchPayloads_length (parse : String → Option JsValue)
    (content : String) :
    (batchPayloads parse content).length =
      ((jsLines content).filter (goodLine parse)).length := by
  unfold batchPayloads
  induction jsLines content with
  | nil => rfl
  | cons a t ih =>
    have hs := payloadOfLine_isSome parse a
    cases hg : payloadOfLine parse a with
    | none =>
      rw [hg] at hs
      simp only [Option.isSome_none] at hs
      simp [List.filterMap_cons, List.filter_cons, hg, ← hs, ih]
    | some v =>
      rw [hg] at hs
      simp only [Option.isSome_some] at hs
      simp [List.filterMap_cons, List.filter_cons, hg, ← hs, ih]


theorem initPrefs_push (env : InitPrefsEnv) (s : ModState) (user : UserData)
    (prefs : UserPrefs) (hj : strTruthy s.storage.jwt = true)
    (hon : env.online = true)
    (hu : getUser env.online s.storage.jwt env.userResp = some user)
    (hp : user.preferences = some prefs)
    (hun : prefs.showMusic = none ∨ prefs.showGit = none ∨
      prefs.showRank = none) :
    initializePreferences env s = (s, sendPreferencesUpdate user.id s) := by
  rw [hon] at hu
  unfold initializePreferences
  rw [hj, hon]
  simp only [hu, hp, Bool.and_self, if_true]
  split
  · rename_i m' g' r' hm' hg' hr'
    exfalso
    rcases hun with h | h | h
    · rw [h] at hm'
      exact Option.noConfusion hm'
    · rw [h] at hg'
      exact Option.noConfusion hg'
    · rw [h] at hr'
      exact Option.noConfusion hr'
  · rfl

theorem initPrefs_pull (env : InitPrefsEnv) (s : ModState) (user : UserData)
    (prefs : UserPrefs) (m g r : Bool) (hj : strTruthy s.storage.jwt = true)
    (hon : env.online = true)
    (hu : getUser env.online s.storage.jwt env.userResp = some user)
    (hp : user.preferences = some prefs)
    (hm : prefs.showMusic = some m) (hg : prefs.showGit = some g)
    (hr : prefs.showRank = some r) :
    initializePreferences env s =
      ({ s with config := { showMusicMetrics := m, showGitMetrics := g,
                            showWeeklyRanking := r } },
       [Effect.updateConfig "showMusicMetrics" m,
        Effect.notifyShowMusicMetrics m,
        Effect.updateConfig "showGitMetrics" g,
        Effect.updateConfig "showWeeklyRanking" r]) := by
  rw [hon] at hu
  unfold initializePreferences
  rw [hj, hon]
  simp only [hu, hp, Bool.and_self, if_true]
  split
  · rename_i m' g' r' hm' hg' hr'
    rw [hm] at hm'
    rw [hg] at hg'
    rw [hr] at hr'
    injection hm' with h1
    injection hg' with h2
    injection hr' with h3
    rw [h1, h2, h3]
  · rename_i hcatch
    exact (hcatch m g r hm hg hr).elim

theorem updatePrefs_noPut (env : UpdatePrefsEnv) (s : ModState)
    (user : UserData) (prefs : UserPrefs)
    (hj : strTruthy s.storage.jwt = true) (hon : env.online = true)
    (hu : getUser env.online s.storage.jwt env.userResp = some user)
    (hok : env.userById.ok = true) (hp : env.userById.prefs = some prefs)
    (h1 : prefs.showMusic = some s.config.showMusicMetrics)
    (h2 : prefs.showGit = some s.config.showGitMetrics)
    (h3 : prefs.showRank = some s.config.showWeeklyRanking) :
    updatePreferences env s =
      (s, [Effect.notifyShowMusicMetrics s.config.showMusicMetrics]) := by
  rw [hon] at hu
  unfold updatePreferences
  rw [hj, hon, hok]
  simp only [hu, hp, Bool.and_self, if_true]
  have hcond : (prefs.showMusic.isNone || prefs.showGit.isNone ||
      prefs.showRank.isNone ||
      prefs.showMusic != some s.config.showMusicMetrics ||
      prefs.showGit != some s.config.showGitMetrics ||
      prefs.showRank != some s.config.showWeeklyRanking) = false := by
    rw [h1, h2, h3]
    simp
  rw [hcond]
  simp

theorem updatePrefs_put (env : UpdatePrefsEnv) (s : ModState)
    (user : UserData) (prefs : UserPrefs)
    (hj : strTruthy s.storage.jwt = true) (hon : env.online = true)
    (hu : getUser env.online s.storage.jwt env.userResp = some user)
    (hok : env.userById.ok = true) (hp : env.userById.prefs = some prefs)
    (hdiff : prefs.showMusic ≠ some s.config.showMusicMetrics ∨
      prefs.showGit ≠ some s.config.showGitMetrics ∨
      prefs.showRank ≠ some s.config.showWeeklyRanking) :
    updatePreferences env s =
      (s, Effect.notifyShowMusicMetrics s.config.showMusicMetrics ::
        sendPreferencesUpdate user.id s) := by
  rw [hon] at hu
  unfold updatePreferences
  rw [hj, hon, hok]
  simp only [hu, hp, Bool.and_self, if_true]
  have hcond : (prefs.showMusic.isNone || prefs.showGit.isNone ||
      prefs.showRank.isNone ||
      prefs.showMusic != some s.config.showMusicMetrics ||
      prefs.showGit != some s.config.showGitMetrics ||
      prefs.showRank != some s.config.showWeeklyRanking) = true := by
    rcases hdiff with h | h | h <;> simp [bne_iff_ne, h]
  rw [hcond]
  simp

theorem updatePrefs_no_config_write (env : UpdatePrefsEnv) (s : ModState)
    (k : String) (v : Bool) :
    Effect.updateConfig k v ∉ (updatePreferences env s).2 := by
  unfold updatePreferences
  dsimp only
  split
  · split
    · simp
    · split
      · split
        · split
          · simp [sendPreferencesUpdate]
          · simp
        · simp
      · simp
  · simp

theorem countPrompts_append (l1 l2 : List Effect) :
    countPrompts (l1 ++ l2) = countPrompts l1 + countPrompts l2 := by
  induction l1 with
  | nil => simp [countPrompts]
  | cons a t ih =>
    cases a <;> (simp [countPrompts, ih]; try omega)

theorem omCreateAnon_effects_cases (online : Bool) (env : CreateAnonEnv)
    (s : ModState) :
    (OM.createAnonymousUser online env s).2.1 =
        [Effect.postOnboard "NO_SESSION_FILE"] ∨
      (OM.createAnonymousUser online env s).2.1 = [] := by
  unfold OM.createAnonymousUser
  dsimp only
  split
  · split
    · split
      · exact Or.inl rfl
      · exact Or.inl rfl
    · exact Or.inr rfl
  · exact Or.inr rfl

theorem omCreateAnon_counters (online : Bool) (env : CreateAnonEnv)
    (s : ModState) :
    (OM.createAnonymousUser online env s).1.retryCounter = s.retryCounter ∧
      (OM.createAnonymousUser online env s).1.secondaryWindowActivateCounter =
        s.secondaryWindowActivateCounter := by
  unfold OM.createAnonymousUser
  dsimp only
  split
  · split
    · split
      · exact ⟨rfl, rfl⟩
      · exact ⟨rfl, rfl⟩
    · exact ⟨rfl, rfl⟩
  · exact ⟨rfl, rfl⟩

theorem omCreateAnon_prompts (online : Bool) (env : CreateAnonEnv)
    (s : ModState) :
    countPrompts (OM.createAnonymousUser online env s).2.1 = 0 := by
  rcases omCreateAnon_effects_cases online env s with h | h <;>
    simp [h, countPrompts]

theorem onboardPlugin_prompt_count (env : OnboardEnv) (s : ModState) :
    countPrompts (onboardPlugin env s).2.1 =
      (if (onboardPlugin env s).2.2 = OnboardNext.retry ∧ s.retryCounter = 0
       then 1 else 0) := by
  unfold onboardPlugin
  dsimp only
  split
  · simp [countPrompts]
  · split
    · split
      · by_cases hz : (s.retryCounter == 0) = true
        · rw [hz]
          simp only [beq_iff_eq] at hz
          simp [countPrompts_append, countPrompts, hz]
        · rw [Bool.not_eq_true] at hz
          rw [hz]
          simp only [beq_eq_false_iff_ne, ne_eq] at hz
          simp [countPrompts_append, countPrompts, hz]
      · split
        · by_cases hz : (s.retryCounter == 0) = true
          · rw [hz]
            simp only [beq_iff_eq] at hz
            simp [countPrompts_append, countPrompts, hz,
              omCreateAnon_prompts]
          · rw [Bool.not_eq_true] at hz
            rw [hz]
            simp only [beq_eq_false_iff_ne, ne_eq] at hz
            simp [countPrompts_append, countPrompts, hz,
              omCreateAnon_prompts]
        · simp [countPrompts_append, countPrompts, omCreateAnon_prompts]
    · simp [countPrompts]

theorem onboardPlugin_retryCounter (env : OnboardEnv) (s : ModState) :
    (onboardPlugin env s).1.retryCounter = s.retryCounter := by
  unfold onboardPlugin
  dsimp only
  split
  · rfl
  · split
    · split
      · rfl
      · split
        · exact (omCreateAnon_counters _ _ _).1
        · exact (omCreateAnon_counters _ _ _).1
    · rfl

theorem onboardRun_no_prompt (envs : List OnboardEnv) :
    ∀ s : ModState, s.retryCounter ≠ 0 →
      countPrompts (onboardRun s envs) = 0 := by
  induction envs with
  | nil =>
    intro s _
    rfl
  | cons env rest ih =>
    intro s h
    unfold onboardRun
    dsimp only
    split
    · rename_i heq
      rw [onboardPlugin_prompt_count, heq]
      simp [h]
    · rename_i heq
      rw [countPrompts_append, onboardPlugin_prompt_count, heq]
      have hcont := ih { (onboardPlugin env s).1 with
        secondaryWindowActivateCounter :=
          (onboardPlugin env s).1.secondaryWindowActivateCounter + 1 }
        (by dsimp only; rw [onboardPlugin_retryCounter]; exact h)
      rw [hcont]
      simp [h]
    · rename_i heq
      rw [countPrompts_append, onboardPlugin_prompt_count, heq]
      have hcont := ih { (onboardPlugin env s).1 with
        retryCounter := (onboardPlugin env s).1.retryCounter + 1 }
        (by dsimp only; exact Nat.succ_ne_zero _)
      rw [hcont]
      simp [h]

theorem onboardRun_prompt_bound (envs : List OnboardEnv) :
    ∀ s : ModState, countPrompts (onboardRun s envs) ≤ 1 := by
  induction envs with
  | nil =>
    intro s
    simp [onboardRun, countPrompts]
  | cons env rest ih =>
    intro s
    unfold onboardRun
    dsimp only
    split
    · rename_i heq
      rw [onboardPlugin_prompt_count, heq]
      split <;> simp
    · rename_i heq
      rw [countPrompts_append, onboardPlugin_prompt_count, heq]
      have hcont := ih { (onboardPlugin env s).1 with
        secondaryWindowActivateCounter :=
          (onboardPlugin env s).1.secondaryWindowActivateCounter + 1 }
      dsimp only at hcont
      simp only [show (OnboardNext.secondaryDefer = OnboardNext.retry ∧
        s.retryCounter = 0) ↔ False by simp, if_false]
      omega
    · rename_i heq
      rw [countPrompts_append, onboardPlugin_prompt_count, heq]
      have hcont := onboardRun_no_prompt rest
        { (onboardPlugin env s).1 with
          retryCounter := (onboardPlugin env s).1.retryCounter + 1 }
        (by dsimp only; exact Nat.succ_ne_zero _)
      rw [hcont]
      split <;> simp

theorem onboardPlugin_no_prompt (env : OnboardEnv) (s : ModState)
    (h : s.retryCounter ≠ 0) :
    Effect.showOfflinePrompt ∉ (onboardPlugin env s).2.1 := by
  have hz : (s.retryCounter == 0) = false := by
    simp [h]
  unfold onboardPlugin
  dsimp only
  split
  · simp
  · split
    · split
      · rw [hz]
        simp
      · split
        · rw [hz]
          rcases omCreateAnon_effects_cases env.serverOnline env.anon s with
            he | he <;> rw [he] <;> simp
        · rcases omCreateAnon_effects_cases env.serverOnline env.anon s with
            he | he <;> rw [he] <;> simp
    · simp

theorem onboardPlugin_retry_delay (env : OnboardEnv) (s : ModState)
    (ms : Nat) (h : Effect.scheduleOnboardRetry ms ∈ (onboardPlugin env s).2.1) :
    ms = 600000 := by
  unfold onboardPlugin at h
  dsimp only at h
  split at h
  · simp at h
  · split at h
    · split at h
      · rcases List.mem_append.mp h with h1 | h1
        · split at h1 <;> simp at h1
        · simp at h1
          exact h1.symm ▸ rfl
      · split at h
        · rcases List.mem_append.mp h with h1 | h1
          · rcases List.mem_append.mp h1 with h2 | h2
            · rcases omCreateAnon_effects_cases env.serverOnline env.anon s
                with he | he <;> rw [he] at h2 <;> simp at h2
            · split at h2 <;> simp at h2
          · simp at h1
            exact h1.symm ▸ rfl
        · rcases List.mem_append.mp h with h1 | h1
          · rcases omCreateAnon_effects_cases env.serverOnline env.anon s
              with he | he <;> rw [he] at h1 <;> simp at h1
          · simp at h1
    · simp at h

theorem onboardRun_retry_delay (envs : List OnboardEnv) :
    ∀ (s : ModState) (ms : Nat),
      Effect.scheduleOnboardRetry ms ∈ onboardRun s envs → ms = 600000 := by
  induction envs with
  | nil =>
    intro s ms h
    simp [onboardRun] at h
  | cons env rest ih =>
    intro s ms h
    unfold onboardRun at h
    dsimp only at h
    split at h
    · exact onboardPlugin_retry_delay env s ms h
    · rcases List.mem_append.mp h with h1 | h1
      · exact onboardPlugin_retry_delay env s ms h1
      · exact ih _ ms h1
    · rcases List.mem_append.mp h with h1 | h1
      · exact onboardPlugin_retry_delay env s ms h1
      · exact ih _ ms h1

theorem onboardPlugin_schedules_retry (env : OnboardEnv) (s : ModState)
    (hfoc : env.windowFocused = true ∨ s.secondaryWindowActivateCounter ≠ 0)
    (hmiss : env.sessionFileExists = false ∨ env.jwtExists = false)
    (hfail : env.serverOnline = false ∨
      strTruthy (OM.createAnonymousUser env.serverOnline env.anon s).2.2 =
        false) :
    Effect.scheduleOnboardRetry 600000 ∈ (onboardPlugin env s).2.1 := by
  have hguard : (!env.windowFocused &&
      s.secondaryWindowActivateCounter == 0) = false := by
    rcases hfoc with h | h <;> simp [h]
  have hmiss2 : (!env.sessionFileExists || !env.jwtExists) = true := by
    rcases hmiss with h | h <;> simp [h]
  unfold onboardPlugin
  rw [hguard, hmiss2]
  by_cases hon : env.serverOnline = true
  · rcases hfail with h | h
    · rw [h] at hon
      exact absurd hon (by decide)
    · rw [hon] at h ⊢
      dsimp only
      rw [h]
      simp
  · rw [Bool.not_eq_true] at hon
    rw [hon]
    simp

theorem onboardPlugin_success (env : OnboardEnv) (s : ModState)
    (hfoc : env.windowFocused = true ∨ s.secondaryWindowActivateCounter ≠ 0)
    (hmiss : env.sessionFileExists = false ∨ env.jwtExists = false)
    (hon : env.serverOnline = true)
    (hok : strTruthy (OM.createAnonymousUser env.serverOnline env.anon s).2.2 =
      true) :
    Effect.callSuccessFunction true ∈ (onboardPlugin env s).2.1 := by
  have hguard : (!env.windowFocused &&
      s.secondaryWindowActivateCounter == 0) = false := by
    rcases hfoc with h | h <;> simp [h]
  have hmiss2 : (!env.sessionFileExists || !env.jwtExists) = true := by
    rcases hmiss with h | h <;> simp [h]
  rw [hon] at hok
  unfold onboardPlugin
  rw [hguard, hmiss2, hon]
  dsimp only
  rw [hok]
  simp

theorem onboardPlugin_session_exists (env : OnboardEnv) (s : ModState)
    (hfoc : env.windowFocused = true ∨ s.secondaryWindowActivateCounter ≠ 0)
    (hsess : env.sessionFileExists = true) (hjwt : env.jwtExists = true) :
    (onboardPlugin env s).2.1 = [Effect.callSuccessFunction false] := by
  have hguard : (!env.windowFocused &&
      s.secondaryWindowActivateCounter == 0) = false := by
    rcases hfoc with h | h <;> simp [h]
  unfold onboardPlugin
  rw [hguard, hsess, hjwt]
  simp

/-! ## Claims -/

/-- C1: for every sequence of sequential (non-interleaved) calls — i.e.
in every reachable state — `createAnonymousUser` issues no onboarding POST
to `/data/onboard` when a token is already present (truthy) in the in-memory
cache or in local storage at call time; this holds for the `DataController`
and for the `OnboardManager` implementation. -/
theorem C1_no_second_onboard_post (s : ModState) (h : Reachable s)
    (hp : strTruthy s.storage.jwt = true ∨ strTruthy s.cachedJwt = true)
    (online : Bool) (env : CreateAnonEnv) (tag : String) :
    Effect.postOnboard tag ∉ (DC.createAnonymousUser online env s).2 ∧
      Effect.postOnboard tag ∉ (OM.createAnonymousUser online env s).2.1 := by
  have hst : strTruthy s.storage.jwt = true := by
    rcases hp with hp | hp
    · exact hp
    · rw [reachable_coherent h hp]
      exact hp
  constructor
  · unfold DC.createAnonymousUser
    dsimp only
    split
    · rw [hst]
      simp
    · simp
  · unfold OM.createAnonymousUser
    dsimp only
    split
    · rw [hst]
      simp
    · simp

/-- Witness for C1: in the reachable state after a successful anonymous-user
creation the token is present and neither implementation posts again. -/
theorem C1_witness :
    Effect.postOnboard "NO_JWT" ∉
        (DC.createAnonymousUser true anonEnvOk tokState).2 ∧
      Effect.postOnboard "NO_SESSION_FILE" ∉
        (OM.createAnonymousUser true anonEnvOk tokState).2.1 := by
  have h := fun tag => C1_no_second_onboard_post tokState
    (Reachable.step (Reachable.init initState0.storage initState0.config)
      (Step.dcCreateAnon true anonEnvOk initState0))
    (Or.inl (by decide)) true anonEnvOk tag
  exact ⟨(h "NO_JWT").1, (h "NO_SESSION_FILE").2⟩

/-- **C2 (amended)**: for a batch file that exists with non-empty content,
`sendOfflineData` POSTs exactly the payload built from the lines that parse
to truthy JSON values (JSON objects always survive; falsy scalar parses are
dropped by the code's truthiness filter), and the file is deleted iff the
POST response is ok or user-deactivated and a subsequent fresh
`serverIsAvailable` probe succeeds; for the scenario content
`{"a":1}\n\nbadjson\n{"b":2}` the payload is `[{"a":1},{"b":2}]`. -/
theorem C2_sendOfflineData (env : OfflineEnv)
    (hf : env.fileExists = true) (hc : env.content ≠ "") :
    sendOfflineData env =
      Effect.postBatch (batchPayloads env.parse env.content) ::
        (if env.batchResp.ok || env.batchResp.deactivated then
          (if serverIsAvailable env.probe then [Effect.deleteDataStoreFile]
           else [])
         else []) ∧
      (Effect.deleteDataStoreFile ∈ sendOfflineData env ↔
        ((env.batchResp.ok = true ∨ env.batchResp.deactivated = true) ∧
          serverIsAvailable env.probe = true)) ∧
      (batchPayloads env.parse env.content).length =
        ((jsLines env.content).filter (goodLine env.parse)).length ∧
      batchPayloads exParse exContent =
        [JsValue.jobj [("a", JsValue.jnum 1)],
         JsValue.jobj [("b", JsValue.jnum 2)]] := by
  have e : sendOfflineData env =
      Effect.postBatch (batchPayloads env.parse env.content) ::
        (if env.batchResp.ok || env.batchResp.deactivated then
          (if serverIsAvailable env.probe then [Effect.deleteDataStoreFile]
           else [])
         else []) := by
    unfold sendOfflineData
    rw [hf]
    simp [hc]
  refine ⟨e, ?_, batchPayloads_length env.parse env.content, rfl⟩
  rw [e]
  constructor
  · intro hm
    rcases List.mem_cons.mp hm with heq | hm2
    · exact absurd heq (by simp)
    · split at hm2
      · split at hm2
        · rename_i h1 h2
          exact ⟨Bool.or_eq_true_iff.mp h1, h2⟩
        · simp at hm2
      · simp at hm2
  · intro hpair
    obtain ⟨h1, h2⟩ := hpair
    have hb : (env.batchResp.ok || env.batchResp.deactivated) = true := by
      rcases h1 with h | h <;> simp [h]
    rw [hb, h2]
    simp

/-- Counterexample for C2 as stated: the single line `"0"` is valid JSON
(`N = 1`) but the POSTed payload is empty, because `JSON.parse("0")` is falsy
and removed by `filter(item => item)`; and a file that exists with empty
content (one line, `N = 0`) produces no POST at all rather than a POST of
zero objects. -/
theorem C2_counterexample :
    (parse0 "0" = some (JsValue.jnum 0) ∧ jsLines "0" = ["0"] ∧
      sendOfflineData cexEnvZero =
        [Effect.postBatch [], Effect.deleteDataStoreFile]) ∧
    sendOfflineData cexEnvEmpty = [] :=
  ⟨⟨rfl, rfl, rfl⟩, rfl⟩

/-- Witness for C2 (amended): the scenario file is POSTed as
`[{"a":1},{"b":2}]` and, the POST being ok and the follow-up probe
succeeding, the batch file is deleted. -/
theorem C2_witness :
    sendOfflineData exEnv =
      Effect.postBatch [JsValue.jobj [("a", JsValue.jnum 1)],
        JsValue.jobj [("b", JsValue.jnum 2)]] ::
        [Effect.deleteDataStoreFile] := by
  have h := C2_sendOfflineData exEnv rfl (by decide)
  rw [h.1]
  rfl

/-- C3: an `isLoggedOn` call whose ok response carries state `OK` and a
non-empty jwt differing from the one passed in persists that jwt, resets the
preferences-initialized flag, and returns `{loggedOn: true, state: "OK"}`. -/
theorem C3_isLoggedOn_persists_rotated_jwt (online : Bool)
    (resp : PluginStateResp) (jwt : Option String) (s : ModState)
    (hon : online = true) (hok : resp.ok = true) (hd : resp.hasData = true)
    (hst : resp.state = some "OK")
    (hj : strTruthy resp.jwt = true) (hne : resp.jwt ≠ jwt) :
    (isLoggedOn online resp jwt s).1.storage.jwt = resp.jwt ∧
      (isLoggedOn online resp jwt s).1.initializedPrefs = false ∧
      (isLoggedOn online resp jwt s).2 =
        { loggedOn := true, state := "OK" } := by
  subst hon
  unfold isLoggedOn
  simp [hok, hd, hst, hj, hne]

/-- Witness for C3 at a concrete rotated-jwt response. -/
theorem C3_witness :
    (isLoggedOn true respRotate (some "old-jwt") initState0).1.storage.jwt =
        some "rotated-jwt" ∧
      (isLoggedOn true respRotate (some "old-jwt") initState0).1.initializedPrefs =
        false ∧
      (isLoggedOn true respRotate (some "old-jwt") initState0).2 =
        { loggedOn := true, state := "OK" } :=
  C3_isLoggedOn_persists_rotated_jwt true respRotate (some "old-jwt")
    initState0 rfl rfl rfl rfl (by decide) (by decide)

/-- C10: an `isLoggedOn` call whose ok response carries state `OK`
unconditionally overwrites the in-memory jwt cache with the response's jwt
field (absent ↦ undefined/none), while the persisted jwt and the
preferences-initialized flag are unchanged unless the response jwt is
non-empty and differs from the jwt passed in. -/
theorem C10_isLoggedOn_cache_overwrite (online : Bool)
    (resp : PluginStateResp) (jwt : Option String) (s : ModState)
    (hon : online = true) (hok : resp.ok = true) (hd : resp.hasData = true)
    (hst : resp.state = some "OK") :
    (isLoggedOn online resp jwt s).1.cachedJwt = resp.jwt ∧
      (¬(strTruthy resp.jwt = true ∧ resp.jwt ≠ jwt) →
        (isLoggedOn online resp jwt s).1.storage.jwt = s.storage.jwt ∧
          (isLoggedOn online resp jwt s).1.initializedPrefs =
            s.initializedPrefs) := by
  subst hon
  unfold isLoggedOn
  rw [hok, hd, hst]
  by_cases hc : (strTruthy resp.jwt && resp.jwt != jwt) = true
  · constructor
    · simp [hc]
    · intro hn
      exfalso
      simp only [Bool.and_eq_true, bne_iff_ne, ne_eq] at hc
      exact hn ⟨hc.1, hc.2⟩
  · constructor
    · simp [hc]
    · intro _
      constructor
      · simp [hc]
      · simp [hc]

/-- Witness for C10 at a concrete `OK` response without a jwt field: the
cache becomes none while the stored jwt and the flag are untouched. -/
theorem C10_witness :
    (isLoggedOn true respNoJwt (some "old-jwt") tokState).1.cachedJwt =
        none ∧
      (isLoggedOn true respNoJwt (some "old-jwt") tokState).1.storage.jwt =
        tokState.storage.jwt ∧
      (isLoggedOn true respNoJwt (some "old-jwt") tokState).1.initializedPrefs =
        tokState.initializedPrefs := by
  have h := C10_isLoggedOn_cache_overwrite true respNoJwt (some "old-jwt")
    tokState rfl rfl rfl rfl
  have h2 := h.2 (by decide)
  exact ⟨h.1, h2.1, h2.2⟩

/-- C4: when `initializePreferences` successfully fetches a user with
preferences, an unset remote field means the next action is the PUT issued
by `sendPreferencesUpdate`, carrying the three current local configuration
values, with the local configuration unchanged; when all three remote fields
are set, no PUT occurs and the three local configuration values are
overwritten with the remote ones. -/
theorem C4_initializePreferences_sync (env : InitPrefsEnv) (s : ModState)
    (user : UserData) (prefs : UserPrefs)
    (hj : strTruthy s.storage.jwt = true) (hon : env.online = true)
    (hu : getUser env.online s.storage.jwt env.userResp = some user)
    (hp : user.preferences = some prefs) :
    ((prefs.showMusic = none ∨ prefs.showGit = none ∨ prefs.showRank = none) →
      initializePreferences env s = (s, sendPreferencesUpdate user.id s) ∧
        Effect.putPreferences user.id s.config.showMusicMetrics
            s.config.showGitMetrics s.config.showWeeklyRanking ∈
          (initializePreferences env s).2 ∧
        (initializePreferences env s).1.config = s.config) ∧
    (∀ m g r : Bool, prefs.showMusic = some m → prefs.showGit = some g →
      prefs.showRank = some r →
      (∀ u a b c, Effect.putPreferences u a b c ∉
        (initializePreferences env s).2) ∧
      (initializePreferences env s).1.config =
        { showMusicMetrics := m, showGitMetrics := g,
          showWeeklyRanking := r }) := by
  constructor
  · intro hun
    have he := initPrefs_push env s user prefs hj hon hu hp hun
    refine ⟨he, ?_, ?_⟩
    · rw [he]
      simp [sendPreferencesUpdate]
    · rw [he]
  · intro m g r hm hg hr
    have he := initPrefs_pull env s user prefs m g r hj hon hu hp hm hg hr
    constructor
    · intro u a b c
      rw [he]
      simp
    · rw [he]

/-- Witness for C4 at concrete remote preferences: an unset `showMusic`
triggers the PUT with the local values and leaves the configuration alone;
fully set remote preferences are pulled into the configuration. -/
theorem C4_witness :
    (initializePreferences initEnvUnset tokState =
        (tokState, sendPreferencesUpdate 7 tokState) ∧
      (initializePreferences initEnvUnset tokState).1.config =
        tokState.config) ∧
    (initializePreferences initEnvSet tokState).1.config =
      { showMusicMetrics := false, showGitMetrics := true,
        showWeeklyRanking := false } := by
  have h1 := (C4_initializePreferences_sync initEnvUnset tokState userUnset
    prefsUnset (by decide) rfl rfl rfl).1 (Or.inl rfl)
  have h2 := (C4_initializePreferences_sync initEnvSet tokState userSet
    prefsSet (by decide) rfl rfl rfl).2 false true false rfl rfl rfl
  exact ⟨⟨h1.1, h1.2.2⟩, h2.2⟩

/-- C5: when `updatePreferences` successfully fetches the user and the
remote preferences, no PUT occurs when the three remote fields are all set
and equal to the local configuration; a PUT with the current local values
occurs when any field is unset or differs; and in no execution does
`updatePreferences` change the state or write to the local configuration —
it never pulls. -/
theorem C5_updatePreferences_push_only (env : UpdatePrefsEnv) (s : ModState)
    (user : UserData) (prefs : UserPrefs)
    (hj : strTruthy s.storage.jwt = true) (hon : env.online = true)
    (hu : getUser env.online s.storage.jwt env.userResp = some user)
    (hok : env.userById.ok = true) (hp : env.userById.prefs = some prefs) :
    ((prefs.showMusic = some s.config.showMusicMetrics ∧
      prefs.showGit = some s.config.showGitMetrics ∧
      prefs.showRank = some s.config.showWeeklyRanking) →
      updatePreferences env s =
          (s, [Effect.notifyShowMusicMetrics s.config.showMusicMetrics]) ∧
        ∀ u a b c, Effect.putPreferences u a b c ∉
          (updatePreferences env s).2) ∧
    ((prefs.showMusic ≠ some s.config.showMusicMetrics ∨
      prefs.showGit ≠ some s.config.showGitMetrics ∨
      prefs.showRank ≠ some s.config.showWeeklyRanking) →
      Effect.putPreferences user.id s.config.showMusicMetrics
          s.config.showGitMetrics s.config.showWeeklyRanking ∈
        (updatePreferences env s).2) ∧
    (∀ (env' : UpdatePrefsEnv) (s' : ModState),
      (updatePreferences env' s').1 = s' ∧
        ∀ k v, Effect.updateConfig k v ∉ (updatePreferences env' s').2) := by
  refine ⟨?_, ?_, fun env' s' =>
    ⟨updatePrefs_state_eq env' s', fun k v =>
      updatePrefs_no_config_write env' s' k v⟩⟩
  · intro hall
    have he := updatePrefs_noPut env s user prefs hj hon hu hok hp
      hall.1 hall.2.1 hall.2.2
    refine ⟨he, ?_⟩
    intro u a b c
    rw [he]
    simp
  · intro hdiff
    have he := updatePrefs_put env s user prefs hj hon hu hok hp hdiff
    rw [he]
    simp [sendPreferencesUpdate]

/-- Witness for C5 at concrete remote preferences matching and differing
from the local configuration of `tokState`. -/
theorem C5_witness :
    updatePreferences updateEnvEq tokState =
        (tokState, [Effect.notifyShowMusicMetrics true]) ∧
      Effect.putPreferences 7 true false true ∈
        (updatePreferences updateEnvDiff tokState).2 := by
  have h1 := (C5_updatePreferences_push_only updateEnvEq tokState
    { id := 7, preferences := none } prefsEq (by decide) rfl rfl rfl rfl).1
    ⟨rfl, rfl, rfl⟩
  have h2 := (C5_updatePreferences_push_only updateEnvDiff tokState
    { id := 7, preferences := none } prefsDiff (by decide) rfl rfl rfl rfl).2.1
    (Or.inl (by decide))
  exact ⟨h1.1, h2⟩

/-- C6: when `getUserStatus` never reports logged in,
`refetchUserStatusLazily(3)` produces exactly 4 status checks — the initial
one plus 3 retries — each after a fixed ten-second delay, and schedules
nothing afterwards: the complete timeline is four delay/check pairs. -/
theorem C6_refetch_four_checks (loggedInAt : Nat → Bool)
    (h : ∀ i, loggedInAt i = false) :
    refetchUserStatusLazily 3 loggedInAt =
      [RefetchEvent.delay 10000, RefetchEvent.statusCheck,
       RefetchEvent.delay 10000, RefetchEvent.statusCheck,
       RefetchEvent.delay 10000, RefetchEvent.statusCheck,
       RefetchEvent.delay 10000, RefetchEvent.statusCheck] ∧
      countChecks (refetchUserStatusLazily 3 loggedInAt) = 4 := by
  have e : refetchUserStatusLazily 3 loggedInAt =
      [RefetchEvent.delay 10000, RefetchEvent.statusCheck,
       RefetchEvent.delay 10000, RefetchEvent.statusCheck,
       RefetchEvent.delay 10000, RefetchEvent.statusCheck,
       RefetchEvent.delay 10000, RefetchEvent.statusCheck] := by
    unfold refetchUserStatusLazily
    simp [userStatusFetchHandler, h 0, h 1, h 2, h 3]
  refine ⟨e, ?_⟩
  rw [e]
  rfl

/-- Witness for C6 with the constantly-false login oracle. -/
theorem C6_witness :
    countChecks (refetchUserStatusLazily 3 (fun _ => false)) = 4 :=
  (C6_refetch_four_checks (fun _ => false) (fun _ => rfl)).2

/-- C7: in every reachable state of the module, a truthy in-memory jwt
cache has already been written to local storage — the persisted jwt equals
the cached one, so any operation relying on the cached token (such as
`getUserStatus`'s fallback retry) relies on a persisted value. -/
theorem C7_cached_jwt_persisted (s : ModState) (h : Reachable s)
    (hc : strTruthy s.cachedJwt = true) : s.storage.jwt = s.cachedJwt :=
  reachable_coherent h hc

/-- Witness for C7: after a successful anonymous-user creation from process
start the cache is truthy and the theorem yields the stored jwt. -/
theorem C7_witness : tokState.storage.jwt = tokState.cachedJwt :=
  C7_cached_jwt_persisted tokState
    (Reachable.step (Reachable.init initState0.storage initState0.config)
      (Step.dcCreateAnon true anonEnvOk initState0))
    (by decide)

/-- C8: for every not-ok response and for a rejected transport promise
(where the source installs a catch handler), each public function returns
its safe default — `false` for `serverIsAvailable`, `{status:"fail"}` for
`sendMusicData`, `null` for `getAppJwt` and `getUser`, and a plain
`{loggedIn: false}` record for `getUserStatus`; the embedding is total, so
no exception escapes. -/
theorem C8_safe_defaults :
    (serverIsAvailable none = false) ∧
    (serverIsAvailable (some false) = false) ∧
    (sendMusicData none = SendStatus.fail) ∧
    (sendMusicData (some false) = SendStatus.fail) ∧
    (∀ (online : Bool) (resp : AppTokenResp), resp.ok = false →
      getAppJwt online resp = none) ∧
    (∀ (online : Bool) (jwt : Option String) (resp : UserResp),
      resp.ok = false → getUser online jwt resp = none) ∧
    (∀ (env : GUSEnv) (s : ModState), env.resp1.ok = false →
      env.resp2.ok = false →
      (getUserStatus env s).2.2 = { loggedIn := false }) := by
  refine ⟨rfl, rfl, rfl, rfl, ?_, ?_, ?_⟩
  · intro online resp h
    unfold getAppJwt
    split
    · rw [h]
      simp
    · rfl
  · intro online jwt resp h
    unfold getUser
    split
    · rw [h]
      simp
    · rfl
  · intro env s h1 h2
    rw [getUserStatus_result, loginPhase_not_ok env s h1 h2]

/-- Witness for C8 at concrete not-ok responses. -/
theorem C8_witness :
    getAppJwt true appTokenBad = none ∧
      getUser true (some "jwt") userRespBad = none ∧
      (getUserStatus gusEnvBad initState0).2.2 = { loggedIn := false } := by
  have h := C8_safe_defaults
  exact ⟨h.2.2.2.2.1 true appTokenBad rfl,
    h.2.2.2.2.2.1 true (some "jwt") userRespBad rfl,
    h.2.2.2.2.2.2 gusEnvBad initState0 rfl rfl⟩

/-- C9: in every sequential run of the onboarding flow the offline
prompt is shown at most once and only while `retry_counter` is zero; every
scheduled onboarding retry uses the fixed ten-minute delay and a retry is
scheduled on every failure regardless of the counter (no maximum retry
count); a successful anonymous-user creation invokes the success callback
with the created flag `true`; an existing session invokes it immediately
with `false`. -/
theorem C9_onboard_flow :
    (∀ (s : ModState) (envs : List OnboardEnv),
      countPrompts (onboardRun s envs) ≤ 1) ∧
    (∀ (s : ModState) (env : OnboardEnv), s.retryCounter ≠ 0 →
      Effect.showOfflinePrompt ∉ (onboardPlugin env s).2.1) ∧
    (∀ (s : ModState) (envs : List OnboardEnv) (ms : Nat),
      Effect.scheduleOnboardRetry ms ∈ onboardRun s envs → ms = 600000) ∧
    (∀ (s : ModState) (env : OnboardEnv),
      (env.windowFocused = true ∨ s.secondaryWindowActivateCounter ≠ 0) →
      (env.sessionFileExists = false ∨ env.jwtExists = false) →
      (env.serverOnline = false ∨
        strTruthy (OM.createAnonymousUser env.serverOnline env.anon s).2.2 =
          false) →
      Effect.scheduleOnboardRetry 600000 ∈ (onboardPlugin env s).2.1) ∧
    (∀ (s : ModState) (env : OnboardEnv),
      (env.windowFocused = true ∨ s.secondaryWindowActivateCounter ≠ 0) →
      (env.sessionFileExists = false ∨ env.jwtExists = false) →
      env.serverOnline = true →
      strTruthy (OM.createAnonymousUser env.serverOnline env.anon s).2.2 =
        true →
      Effect.callSuccessFunction true ∈ (onboardPlugin env s).2.1) ∧
    (∀ (s : ModState) (env : OnboardEnv),
      (env.windowFocused = true ∨ s.secondaryWindowActivateCounter ≠ 0) →
      env.sessionFileExists = true → env.jwtExists = true →
      (onboardPlugin env s).2.1 = [Effect.callSuccessFunction false]) :=
  ⟨fun s envs => onboardRun_prompt_bound envs s,
   fun s env h => onboardPlugin_no_prompt env s h,
   fun s envs ms h => onboardRun_retry_delay envs s ms h,
   fun s env h1 h2 h3 => onboardPlugin_schedules_retry env s h1 h2 h3,
   fun s env h1 h2 h3 h4 => onboardPlugin_success env s h1 h2 h3 h4,
   fun s env h1 h2 h3 => onboardPlugin_session_exists env s h1 h2 h3⟩

/-- Witness for C9 at concrete runs: two offline rounds show one prompt
and only ten-minute retries; a successful creation calls back with `true`;
an existing session calls back with `false`. -/
theorem C9_witness :
    countPrompts (onboardRun initState0
        [onboardEnvOffline, onboardEnvOffline]) ≤ 1 ∧
      Effect.scheduleOnboardRetry 600000 ∈
        (onboardPlugin onboardEnvOffline initState0).2.1 ∧
      Effect.callSuccessFunction true ∈
        (onboardPlugin onboardEnvCreate initState0).2.1 ∧
      (onboardPlugin onboardEnvSession initState0).2.1 =
        [Effect.callSuccessFunction false] := by
  have h := C9_onboard_flow
  refine ⟨h.1 initState0 [onboardEnvOffline, onboardEnvOffline], ?_, ?_, ?_⟩
  · exact h.2.2.2.1 initState0 onboardEnvOffline (Or.inl rfl)
      (Or.inl rfl) (Or.inl rfl)
  · exact h.2.2.2.2.1 initState0 onboardEnvCreate (Or.inl rfl)
      (Or.inl rfl) rfl (by decide)
  · exact h.2.2.2.2.2 initState0 onboardEnvSession (Or.inl rfl) rfl rfl
